import Mathlib

/-!
Verification of the L3GD20 gyroscope driver (`src/src/l3gd20_driver.cpp`,
`src/src/l3gd20_utils.cpp`, `l3gd20_driver.h`).

The device register file is modelled as a function from 8-bit register
addresses to byte values.  Machine bytes are natural numbers reduced
modulo 256 at every point where the C++ `uint8_t` type truncates.
The C++ `float` values (sensitivities, cutoff-frequency tables) are
modelled as exact rationals.  The fatal `MBED_ERROR` macro is modelled
by `Except.error` carrying the error code together with the driver state
at the moment the error is raised.
-/

namespace L3gd20

/-- Device register file: one byte per 8-bit register address. -/
abbrev Regs := Nat → Nat

/-! ### Register transport (`RegisterDevice`, src/src/l3gd20_utils.cpp)

The physical bus framing (I2C/SPI byte protocol) is an external
collaborator; at the register level both protocols provide the same
read / write / read-modify-write contract, which is what is modelled. -/

/-- `RegisterDevice::read_register(reg)`: read one register byte. -/
def read_register (b : Regs) (reg : Nat) : Nat := b reg % 256

/-- `RegisterDevice::write_register(reg, val)`: write one register byte. -/
def write_register (b : Regs) (reg val : Nat) : Regs :=
  fun r => if r = reg then val % 256 else b r

/-- `RegisterDevice::update_register(reg, val, mask)` (src/src/l3gd20_utils.cpp:112):
read-modify-write: `reg_val &= ~mask; val &= mask; reg_val |= val`.
`~mask` on a `uint8_t` operand is the 8-bit complement `255 ^^^ (mask % 256)`. -/
def update_register (b : Regs) (reg val mask : Nat) : Regs :=
  let reg_val := read_register b reg
  let reg_val2 := reg_val &&& (255 ^^^ mask % 256)
  let val2 := val % 256 &&& mask % 256
  write_register b reg (reg_val2 ||| val2)

/-- `RegisterDevice::read_register(reg, mask)` (src/src/l3gd20_utils.cpp:121):
masked read, `read_register(reg) & mask`. -/
def read_register_masked (b : Regs) (reg mask : Nat) : Nat :=
  read_register b reg &&& mask % 256

/-! ### Register addresses and constants (`l3gd20_driver.h`) -/

def WHO_AM_I_ADDR : Nat := 0x0F
def CTRL_REG1_ADDR : Nat := 0x20
def CTRL_REG2_ADDR : Nat := 0x21
def CTRL_REG3_ADDR : Nat := 0x22
def CTRL_REG4_ADDR : Nat := 0x23
def CTRL_REG5_ADDR : Nat := 0x24
def OUT_TEMP_ADDR : Nat := 0x26
def OUT_X_L_ADDR : Nat := 0x28
def OUT_X_H_ADDR : Nat := 0x29
def OUT_Y_L_ADDR : Nat := 0x2A
def OUT_Y_H_ADDR : Nat := 0x2B
def OUT_Z_L_ADDR : Nat := 0x2C
def OUT_Z_H_ADDR : Nat := 0x2D
def FIFO_CTRL_REG_ADDR : Nat := 0x2E

/-- `L3GD20Gyroscope::_DEVICE_ID = 0xD4` (l3gd20_driver.h). -/
def DEVICE_ID : Nat := 0xD4

/-- enum GyroscopeMode (l3gd20_driver.h). -/
def G_DISABLE : Nat := 0x00
def G_ENABLE : Nat := 0x0F

/-- enum OutputDataRate (l3gd20_driver.h). -/
def ODR_95_HZ : Nat := 0x00
def ODR_190_HZ : Nat := 0x40
def ODR_380_HZ : Nat := 0x80
def ODR_760_HZ : Nat := 0xC0

/-- enum LowPassFilterCutoffFreqMode (l3gd20_driver.h). -/
def LPF_CF0 : Nat := 0x00
def LPF_CF1 : Nat := 0x10
def LPF_CF2 : Nat := 0x20
def LPF_CF3 : Nat := 0x30

/-- enum HighPassFilterMode (l3gd20_driver.h). -/
def HPF_ENABLE : Nat := 0x10
def HPF_DISABLE : Nat := 0x00

/-- enum HighPassFilterCutoffFreqMode (l3gd20_driver.h): HPF_CF0 .. HPF_CF9 = 0 .. 9. -/
def HPF_CF0 : Nat := 0x00
def HPF_CF7 : Nat := 0x07
def HPF_CF9 : Nat := 0x09

/-- enum FullScale (l3gd20_driver.h). -/
def FULL_SCALE_250 : Nat := 0x00
def FULL_SCALE_500 : Nat := 0x10
def FULL_SCALE_1000 : Nat := 0x20
def FULL_SCALE_2000 : Nat := 0x30

/-- enum FIFOMode (l3gd20_driver.h). -/
def FIFO_ENABLE : Nat := 1
def FIFO_DISABLE : Nat := 0

/-- enum DataReadyInterruptMode (l3gd20_driver.h). -/
def DRDY_ENABLE : Nat := 1
def DRDY_DISABLE : Nat := 0

/-- Modelled from the spec: `MBED_SUCCESS` of the external mbed-os headers is 0. -/
def MBED_SUCCESS : Int := 0

/-- Modelled from the spec: `MBED_ERROR_CODE_INITIALIZATION_FAILED` is a
distinguished non-zero code defined by the external mbed-os headers (not part
of this repository); only its being non-zero and distinct matters here. -/
def MBED_ERROR_CODE_INITIALIZATION_FAILED : Int := 259

/-- Modelled from the spec: `MBED_ERROR_INVALID_ARGUMENT` is a distinguished
non-zero invalid-argument code defined by the external mbed-os headers. -/
def MBED_ERROR_INVALID_ARGUMENT : Int := 265

/-! ### Lookup tables (static arrays in src/src/l3gd20_driver.cpp)

Each C++ `static const` array is modelled as a function on the index;
every source index expression is provably below the array length, so the
catch-all arms (out-of-range access is undefined in C++) are unreachable. -/

/-- `ODR_MODE_MAP` (src/src/l3gd20_driver.cpp:93). -/
def ODR_MODE_MAP : Nat → Nat
  | 0 => ODR_95_HZ
  | 1 => ODR_190_HZ
  | 2 => ODR_380_HZ
  | 3 => ODR_760_HZ
  | _ + 4 => 0

/-- `LPF_CF_MODE_MAP` (src/src/l3gd20_driver.cpp:124): all four entries are `LPF_CF0`. -/
def LPF_CF_MODE_MAP : Nat → Nat
  | 0 => LPF_CF0
  | 1 => LPF_CF0
  | 2 => LPF_CF0
  | 3 => LPF_CF0
  | _ + 4 => 0

/-- `HPF_CF_MODE_MAP` (src/src/l3gd20_driver.cpp:185): `HPF_CF0 .. HPF_CF9`. -/
def HPF_CF_MODE_MAP : Nat → Nat
  | 0 => 0 | 1 => 1 | 2 => 2 | 3 => 3 | 4 => 4
  | 5 => 5 | 6 => 6 | 7 => 7 | 8 => 8 | 9 => 9
  | _ + 10 => 0

/-- `HPF_CF_FREQ_MAP` (src/src/l3gd20_driver.cpp:207): 40 entries, mode-major,
four output-data-rate columns per high-pass cutoff mode. -/
def HPF_CF_FREQ_MAP : Nat → ℚ
  | 0 => 7.2   | 1 => 13.5  | 2 => 27.0  | 3 => 51.4   -- mode 0
  | 4 => 3.5   | 5 => 7.2   | 6 => 13.5  | 7 => 27.0   -- mode 1
  | 8 => 1.8   | 9 => 3.5   | 10 => 7.2  | 11 => 13.5  -- mode 2
  | 12 => 0.9  | 13 => 1.8  | 14 => 3.5  | 15 => 7.2   -- mode 3
  | 16 => 0.45 | 17 => 0.9  | 18 => 1.8  | 19 => 3.5   -- mode 4
  | 20 => 0.18 | 21 => 0.45 | 22 => 0.9  | 23 => 1.8   -- mode 5
  | 24 => 0.09 | 25 => 0.18 | 26 => 0.45 | 27 => 0.9   -- mode 6
  | 28 => 0.045 | 29 => 0.09 | 30 => 0.18 | 31 => 0.45 -- mode 7
  | 32 => 0.018 | 33 => 0.045 | 34 => 0.09 | 35 => 0.18 -- mode 8
  | 36 => 0.009 | 37 => 0.018 | 38 => 0.045 | 39 => 0.09 -- mode 9
  | _ + 40 => 0

/-- `FS_MODE_MAP` (src/src/l3gd20_driver.cpp:271). -/
def FS_MODE_MAP : Nat → Nat
  | 0 => FULL_SCALE_250
  | 1 => FULL_SCALE_500
  | 2 => FULL_SCALE_1000
  | 3 => FULL_SCALE_2000
  | _ + 4 => 0

/-- `SENSITIVITY_MAP` (src/src/l3gd20_driver.cpp:278). -/
def SENSITIVITY_MAP : Nat → ℚ
  | 0 => 0.00875
  | 1 => 0.01750
  | 2 => 0.03500
  | 3 => 0.07000
  | _ + 4 => 0

/-- `RADIAN_PER_DEGREE` (src/src/l3gd20_driver.cpp:285). -/
def RADIAN_PER_DEGREE : ℚ := 0.017453292519943295

/-! ### The gyroscope driver (`L3GD20Gyroscope`, src/src/l3gd20_driver.cpp) -/

/-- Driver state: the device register file plus the two host-side cached
sensitivity scale factors (`_gyro_sensitivity_dps`, `_gyro_sensitivity_rps`). -/
structure L3GD20Gyroscope where
  regs : Regs
  gyro_sensitivity_dps : ℚ
  gyro_sensitivity_rps : ℚ

/-- `set_gyroscope_mode` (src/src/l3gd20_driver.cpp:74). -/
def set_gyroscope_mode (d : L3GD20Gyroscope) (mode : Nat) : L3GD20Gyroscope :=
  { d with regs := update_register d.regs CTRL_REG1_ADDR mode 0x0F }

/-- `get_gyroscope_mode` (src/src/l3gd20_driver.cpp:79): tests only mask `0x08`. -/
def get_gyroscope_mode (d : L3GD20Gyroscope) : Nat :=
  if read_register_masked d.regs CTRL_REG1_ADDR 0x08 ≠ 0 then G_ENABLE else G_DISABLE

/-- `set_output_data_rate` (src/src/l3gd20_driver.cpp:88). -/
def set_output_data_rate (d : L3GD20Gyroscope) (odr : Nat) : L3GD20Gyroscope :=
  { d with regs := update_register d.regs CTRL_REG1_ADDR odr 0xC0 }

/-- `get_output_data_rate` (src/src/l3gd20_driver.cpp:100). -/
def get_output_data_rate (d : L3GD20Gyroscope) : Nat :=
  ODR_MODE_MAP (read_register_masked d.regs CTRL_REG1_ADDR 0xC0 >>> 6)

/-- `set_low_pass_filter_cutoff_freq_mode` (src/src/l3gd20_driver.cpp:119). -/
def set_low_pass_filter_cutoff_freq_mode (d : L3GD20Gyroscope) (mode : Nat) :
    L3GD20Gyroscope :=
  { d with regs := update_register d.regs CTRL_REG1_ADDR mode 0x30 }

/-- `get_low_pass_filter_cutoff_freq_mode` (src/src/l3gd20_driver.cpp:131). -/
def get_low_pass_filter_cutoff_freq_mode (d : L3GD20Gyroscope) : Nat :=
  LPF_CF_MODE_MAP (read_register_masked d.regs CTRL_REG1_ADDR 0x30 >>> 4)

/-- `set_high_pass_filter_mode` (src/src/l3gd20_driver.cpp:166). -/
def set_high_pass_filter_mode (d : L3GD20Gyroscope) (mode : Nat) : L3GD20Gyroscope :=
  { d with regs := update_register d.regs CTRL_REG5_ADDR mode 0x10 }

/-- `get_high_pass_filter_mode` (src/src/l3gd20_driver.cpp:171). -/
def get_high_pass_filter_mode (d : L3GD20Gyroscope) : Nat :=
  if read_register_masked d.regs CTRL_REG5_ADDR 0x10 ≠ 0 then HPF_ENABLE else HPF_DISABLE

/-- `set_high_pass_filter_cutoff_freq_mode` (src/src/l3gd20_driver.cpp:180). -/
def set_high_pass_filter_cutoff_freq_mode (d : L3GD20Gyroscope) (mode : Nat) :
    L3GD20Gyroscope :=
  { d with regs := update_register d.regs CTRL_REG2_ADDR mode 0x0F }

/-- `get_high_pass_filter_cutoff_freq_mode` (src/src/l3gd20_driver.cpp:198):
a read-back field value of 10 or larger is clamped to 9. -/
def get_high_pass_filter_cutoff_freq_mode (d : L3GD20Gyroscope) : Nat :=
  let i := read_register_masked d.regs CTRL_REG2_ADDR 0x0F
  let i2 := if i ≥ 10 then 9 else i
  HPF_CF_MODE_MAP i2

/-- `get_high_pass_filter_cut_off_frequency` (src/src/l3gd20_driver.cpp:260). -/
def get_high_pass_filter_cut_off_frequency (d : L3GD20Gyroscope) : ℚ :=
  let hfp_cf_mode := read_register_masked d.regs CTRL_REG2_ADDR 0x0F
  let hfp_cf_mode2 := if hfp_cf_mode ≥ 10 then 9 else hfp_cf_mode
  let odr_mode := read_register_masked d.regs CTRL_REG1_ADDR 0xC0 >>> 6
  HPF_CF_FREQ_MAP ((hfp_cf_mode2 <<< 2) ||| odr_mode)

/-- `set_full_scale` (src/src/l3gd20_driver.cpp:287): writes the 2-bit field and
recomputes both cached sensitivities. -/
def set_full_scale (d : L3GD20Gyroscope) (fs : Nat) : L3GD20Gyroscope :=
  let regs2 := update_register d.regs CTRL_REG4_ADDR fs 0x30
  let i := (fs &&& 0x30) >>> 4
  let dps := SENSITIVITY_MAP i
  { regs := regs2, gyro_sensitivity_dps := dps,
    gyro_sensitivity_rps := dps * RADIAN_PER_DEGREE }

/-- `get_full_scale` (src/src/l3gd20_driver.cpp:295). -/
def get_full_scale (d : L3GD20Gyroscope) : Nat :=
  FS_MODE_MAP (read_register_masked d.regs CTRL_REG4_ADDR 0x30 >>> 4)

/-- `get_sensitivity` (src/src/l3gd20_driver.cpp:301): live register read. -/
def get_sensitivity (d : L3GD20Gyroscope) : ℚ :=
  SENSITIVITY_MAP (read_register_masked d.regs CTRL_REG4_ADDR 0x30 >>> 4) *
    RADIAN_PER_DEGREE

/-- `get_sensitivity_dps` (src/src/l3gd20_driver.cpp:307): live register read. -/
def get_sensitivity_dps (d : L3GD20Gyroscope) : ℚ :=
  SENSITIVITY_MAP (read_register_masked d.regs CTRL_REG4_ADDR 0x30 >>> 4)

/-- `get_fifo_mode` (src/src/l3gd20_driver.cpp:325). -/
def get_fifo_mode (d : L3GD20Gyroscope) : Nat :=
  if read_register_masked d.regs CTRL_REG5_ADDR 0x40 ≠ 0 then FIFO_ENABLE
  else FIFO_DISABLE

/-- `_update_interrupt_register(0)` (src/src/l3gd20_driver.cpp:415): disable. -/
def _update_interrupt_register_disable (d : L3GD20Gyroscope) :
    Nat × L3GD20Gyroscope :=
  (DRDY_DISABLE, { d with regs := update_register d.regs CTRL_REG3_ADDR 0x00 0x0F })

/-- `_update_interrupt_register(1)` (src/src/l3gd20_driver.cpp:420): enable;
the interrupt source depends on the current FIFO mode. -/
def _update_interrupt_register_enable (d : L3GD20Gyroscope) :
    Nat × L3GD20Gyroscope :=
  let fifo_mode := get_fifo_mode d
  if fifo_mode ≠ 0 then
    (DRDY_ENABLE, { d with regs := update_register d.regs CTRL_REG3_ADDR 0x04 0x0F })
  else
    (DRDY_ENABLE, { d with regs := update_register d.regs CTRL_REG3_ADDR 0x08 0x0F })

/-- `_update_interrupt_register(3)` (src/src/l3gd20_driver.cpp:441): query;
performs only a read, so it returns just the mode. -/
def _update_interrupt_register_query (d : L3GD20Gyroscope) : Nat :=
  let val := read_register_masked d.regs CTRL_REG3_ADDR 0x0F
  if val ≠ 0 then DRDY_ENABLE else DRDY_DISABLE

/-- `_update_interrupt_register(2)` (src/src/l3gd20_driver.cpp:432): re-evaluate
the interrupt routing after a FIFO mode change. -/
def _update_interrupt_register_refresh (d : L3GD20Gyroscope) :
    Nat × L3GD20Gyroscope :=
  if _update_interrupt_register_query d = DRDY_ENABLE then
    _update_interrupt_register_enable d
  else
    _update_interrupt_register_disable d

/-- `set_fifo_mode` (src/src/l3gd20_driver.cpp:313): writes the FIFO registers
then re-evaluates the interrupt routing. -/
def set_fifo_mode (d : L3GD20Gyroscope) (mode : Nat) : L3GD20Gyroscope :=
  let d2 :=
    if mode ≠ 0 then
      -- configure FIFO stream mode, then enable FIFO
      let b1 := update_register d.regs FIFO_CTRL_REG_ADDR 0x40 0xE0
      { d with regs := update_register b1 CTRL_REG5_ADDR 0x40 0x40 }
    else
      -- disable FIFO, then configure FIFO bypass mode
      let b1 := update_register d.regs CTRL_REG5_ADDR 0x00 0x40
      { d with regs := update_register b1 FIFO_CTRL_REG_ADDR 0x00 0xE0 }
  (_update_interrupt_register_refresh d2).2

/-- `set_fifo_watermark` (src/src/l3gd20_driver.cpp:334): out-of-range raises a
fatal invalid-argument error before touching any register; the error carries
the driver state at the moment `MBED_ERROR` is raised. -/
def set_fifo_watermark (d : L3GD20Gyroscope) (watermark : Int) :
    Except (Int × L3GD20Gyroscope) L3GD20Gyroscope :=
  if watermark < 0 ∨ 32 ≤ watermark then
    Except.error (MBED_ERROR_INVALID_ARGUMENT, d)
  else
    Except.ok { d with regs := update_register d.regs FIFO_CTRL_REG_ADDR watermark.toNat 0x1F }

/-- `get_fifo_watermark` (src/src/l3gd20_driver.cpp:342). -/
def get_fifo_watermark (d : L3GD20Gyroscope) : Nat :=
  read_register_masked d.regs FIFO_CTRL_REG_ADDR 0x1F

/-- `set_data_ready_interrupt_mode` (src/src/l3gd20_driver.cpp:358). -/
def set_data_ready_interrupt_mode (d : L3GD20Gyroscope) (drdy_mode : Nat) :
    L3GD20Gyroscope :=
  if drdy_mode ≠ 0 then (_update_interrupt_register_enable d).2
  else (_update_interrupt_register_disable d).2

/-- `get_data_ready_interrupt_mode` (src/src/l3gd20_driver.cpp:367). -/
def get_data_ready_interrupt_mode (d : L3GD20Gyroscope) : Nat :=
  _update_interrupt_register_query d

/-- The cast `(int16_t)` applied to an integer value, in two-complement form. -/
def cast_int16 (x : Nat) : Int :=
  if x % 65536 < 32768 then ((x % 65536 : Nat) : Int)
  else ((x % 65536 : Nat) : Int) - 65536

/-- `read_data_16` (src/src/l3gd20_driver.cpp:390): burst-reads the six data
registers starting at `OUT_X_L_ADDR` (the device auto-increments the address)
and reconstructs each axis as `(int16_t)(raw[h] << 8) + raw[l]`. -/
def read_data_16 (d : L3GD20Gyroscope) : Int × Int × Int :=
  let raw_data : Nat → Nat := fun i => read_register d.regs (OUT_X_L_ADDR + i)
  (cast_int16 (raw_data 1 <<< 8) + raw_data 0,
   cast_int16 (raw_data 3 <<< 8) + raw_data 2,
   cast_int16 (raw_data 5 <<< 8) + raw_data 4)

/-- `read_data_dps` (src/src/l3gd20_driver.cpp:381): raw sample scaled by the
cached degrees-per-second sensitivity. -/
def read_data_dps (d : L3GD20Gyroscope) : ℚ × ℚ × ℚ :=
  let data_16 := read_data_16 d
  (data_16.1 * d.gyro_sensitivity_dps,
   data_16.2.1 * d.gyro_sensitivity_dps,
   data_16.2.2 * d.gyro_sensitivity_dps)

/-- The identity-probe loop of `init` (src/src/l3gd20_driver.cpp:35), the
3-iteration `for` loop unrolled.  The bus may glitch (source comment), so the
value delivered by the n-th read of `WHO_AM_I_ADDR` is `resp n`; on a reliable
bus `resp` is constantly the register content.  Returns the number of reads
performed and the final `device_id` value. -/
def whoAmIProbe (resp : Nat → Nat) : Nat × Nat :=
  let v0 := resp 0 % 256
  if v0 = DEVICE_ID then (1, v0)
  else
    let v1 := resp 1 % 256
    if v1 = DEVICE_ID then (2, v1)
    else (3, resp 2 % 256)

/-- `init` (src/src/l3gd20_driver.cpp:29): identity probe, fixed control-register
writes, then the default configuration.  `resp` supplies the values delivered
by the successive identification-register reads. -/
def init (resp : Nat → Nat) (start : Bool) (d : L3GD20Gyroscope) :
    Int × L3GD20Gyroscope :=
  let probe := whoAmIProbe resp
  if probe.2 ≠ DEVICE_ID then
    (MBED_ERROR_CODE_INITIALIZATION_FAILED, d)
  else
    -- continuous data update and little endian data order
    let d1 := { d with regs := update_register d.regs CTRL_REG4_ADDR 0x00 0xC0 }
    -- connect output to LPF2
    let d2 := { d1 with regs := update_register d1.regs CTRL_REG5_ADDR 0x03 0x03 }
    -- default settings
    let d3 := set_data_ready_interrupt_mode d2 DRDY_DISABLE
    let d4 := set_fifo_mode d3 FIFO_DISABLE
    let d5 := match set_fifo_watermark d4 0 with
              | Except.ok x => x
              | Except.error e => e.2
    let d6 := set_full_scale d5 FULL_SCALE_250
    let d7 := set_high_pass_filter_mode d6 HPF_DISABLE
    let d8 := set_high_pass_filter_cutoff_freq_mode d7 HPF_CF0
    let d9 := set_low_pass_filter_cutoff_freq_mode d8 LPF_CF0
    let d10 := set_output_data_rate d9 ODR_95_HZ
    let d11 := set_gyroscope_mode d10 (if start then G_ENABLE else G_DISABLE)
    (MBED_SUCCESS, d11)

/-- Specification-side reading of a 16-bit pattern: the value of the low
16 bits of `n` interpreted as a signed 16-bit integer in two-complement
form.  Used to compare the axis reconstruction of the driver against the
wording of the spec. -/
def toSigned16 (n : Nat) : Int :=
  if n % 65536 < 32768 then ((n % 65536 : Nat) : Int)
  else ((n % 65536 : Nat) : Int) - 65536

/-- All-zero register file, used for concrete instantiations. -/
def zeroRegs : Regs := fun _ => 0

/-- A concrete driver over the all-zero register file. -/
def d0 : L3GD20Gyroscope := ⟨zeroRegs, 0, 0⟩

/-- A concrete driver whose FIFO-enable bit (CTRL_REG5 bit 6) is set. -/
def dFifoEnabled : L3GD20Gyroscope :=
  ⟨fun r => if r = CTRL_REG5_ADDR then 0x40 else 0, 0, 0⟩

/-- A concrete driver whose data-ready interrupt (CTRL_REG3 low nibble) is on. -/
def dIntrEnabled : L3GD20Gyroscope :=
  ⟨fun r => if r = CTRL_REG3_ADDR then 0x08 else 0, 0, 0⟩

/-- A concrete driver whose CTRL_REG1 low nibble is `0x07`: axis-enable bits
set but bit 3 (the power-down bit, mask `0x08`) clear. -/
def dLowBits : L3GD20Gyroscope :=
  ⟨fun r => if r = CTRL_REG1_ADDR then 0x07 else 0, 0, 0⟩

/-! ### Byte-level helper lemmas -/

lemma mod256_lt (x : Nat) : x % 256 < 256 := Nat.mod_lt _ (by decide)

lemma read_register_lt (b : Regs) (reg : Nat) : read_register b reg < 256 :=
  mod256_lt _

lemma and_lt_256 (x y : Nat) (hy : y < 256) : x &&& y < 256 := by
  have h : y < 2 ^ 8 := by norm_num; exact hy
  have := Nat.and_lt_two_pow x h
  norm_num at this
  exact this

lemma or_lt_256 {x y : Nat} (hx : x < 256) (hy : y < 256) : x ||| y < 256 := by
  have hx8 : x < 2 ^ 8 := by norm_num; exact hx
  have hy8 : y < 2 ^ 8 := by norm_num; exact hy
  have := Nat.or_lt_two_pow hx8 hy8
  norm_num at this
  exact this

lemma xor_lt_256 {x y : Nat} (hx : x < 256) (hy : y < 256) : x ^^^ y < 256 := by
  have hx8 : x < 2 ^ 8 := by norm_num; exact hx
  have hy8 : y < 2 ^ 8 := by norm_num; exact hy
  have := Nat.xor_lt_two_pow hx8 hy8
  norm_num at this
  exact this

lemma read_write_self (b : Regs) (reg val : Nat) :
    read_register (write_register b reg val) reg = val % 256 := by
  simp [read_register, write_register, Nat.mod_mod_of_dvd]

lemma read_write_ne (b : Regs) {reg reg2 : Nat} (h : reg2 ≠ reg) (val : Nat) :
    read_register (write_register b reg val) reg2 = read_register b reg2 := by
  simp [read_register, write_register, h]

lemma read_update_ne (b : Regs) {reg reg2 : Nat} (h : reg2 ≠ reg) (val mask : Nat) :
    read_register (update_register b reg val mask) reg2 = read_register b reg2 := by
  simp only [update_register]
  exact read_write_ne _ h _

lemma read_update_self (b : Regs) (reg val mask : Nat) :
    read_register (update_register b reg val mask) reg
      = (read_register b reg &&& (255 ^^^ mask % 256)) ||| (val % 256 &&& mask % 256) := by
  have hor : (read_register b reg &&& (255 ^^^ mask % 256)) |||
      (val % 256 &&& mask % 256) < 256 :=
    or_lt_256 (and_lt_256 _ _ (xor_lt_256 (by norm_num) (mod256_lt mask)))
      (and_lt_256 _ _ (mod256_lt mask))
  simp only [update_register, read_write_self]
  exact Nat.mod_eq_of_lt hor

/-- 8-bit complements of the concrete masks the driver uses. -/
lemma xor255_0x0F : (255 ^^^ 0x0F : Nat) = 0xF0 := by decide
lemma xor255_0xC0 : (255 ^^^ 0xC0 : Nat) = 0x3F := by decide
lemma xor255_0x30 : (255 ^^^ 0x30 : Nat) = 0xCF := by decide
lemma xor255_0x10 : (255 ^^^ 0x10 : Nat) = 0xEF := by decide
lemma xor255_0x40 : (255 ^^^ 0x40 : Nat) = 0xBF := by decide
lemma xor255_0xE0 : (255 ^^^ 0xE0 : Nat) = 0x1F := by decide
lemma xor255_0x1F : (255 ^^^ 0x1F : Nat) = 0xE0 := by decide
lemma xor255_0x03 : (255 ^^^ 0x03 : Nat) = 0xFC := by decide

lemma testBit_255 (i : Nat) : (255 : Nat).testBit i = decide (i < 8) := by
  rw [show (255 : Nat) = 2 ^ 8 - 1 by norm_num]
  exact Nat.testBit_two_pow_sub_one 8 i

lemma testBit_ge8 {x : Nat} (hx : x < 256) {i : Nat} (hi : 8 ≤ i) :
    x.testBit i = false := by
  apply Nat.testBit_lt_two_pow
  calc x < 256 := hx
    _ = 2 ^ 8 := by norm_num
    _ ≤ 2 ^ i := Nat.pow_le_pow_right (by norm_num) hi

/-- Reading back the sub-field that a read-modify-write byte just wrote. -/
lemma upd_byte_subset {x v m g : Nat} (hg : g < 256)
    (hsub : g &&& m = g) :
    ((x &&& (255 ^^^ m)) ||| (v &&& m)) &&& g = v &&& g := by
  apply Nat.eq_of_testBit_eq
  intro i
  have hs := congrArg (fun t => Nat.testBit t i) hsub
  simp only [Nat.testBit_and] at hs
  by_cases hi : i < 8
  · simp only [Nat.testBit_and, Nat.testBit_or, Nat.testBit_xor, testBit_255, hi, decide_True]
    cases hgi : g.testBit i <;> cases hmi : m.testBit i <;> simp_all
  · have h8 : 8 ≤ i := Nat.le_of_not_lt hi
    simp [Nat.testBit_and, testBit_ge8 hg h8]

/-- A read-modify-write byte leaves sub-fields disjoint from the mask alone. -/
lemma upd_byte_disjoint {x v m g : Nat} (hg : g < 256) (hdis : g &&& m = 0) :
    ((x &&& (255 ^^^ m)) ||| (v &&& m)) &&& g = x &&& g := by
  apply Nat.eq_of_testBit_eq
  intro i
  have hs := congrArg (fun t => Nat.testBit t i) hdis
  simp only [Nat.testBit_and, Nat.zero_testBit] at hs
  by_cases hi : i < 8
  · simp only [Nat.testBit_and, Nat.testBit_or, Nat.testBit_xor, testBit_255, hi, decide_True]
    cases hgi : g.testBit i <;> cases hmi : m.testBit i <;> simp_all
  · have h8 : 8 ≤ i := Nat.le_of_not_lt hi
    simp [Nat.testBit_and, testBit_ge8 hg h8]

/-- Masked read after an update of a different register. -/
lemma read_masked_update_ne (b : Regs) {reg reg2 : Nat} (h : reg2 ≠ reg)
    (val mask g : Nat) :
    read_register_masked (update_register b reg val mask) reg2 g
      = read_register_masked b reg2 g := by
  unfold read_register_masked
  rw [read_update_ne b h]

/-- Masked read of a sub-field fully covered by the update mask: the read
returns the freshly written bits. -/
lemma read_masked_update_subset (b : Regs) (reg val mask g : Nat)
    (hsub : g % 256 &&& mask % 256 = g % 256) :
    read_register_masked (update_register b reg val mask) reg g
      = val % 256 &&& g % 256 := by
  unfold read_register_masked
  rw [read_update_self]
  exact upd_byte_subset (mod256_lt g) hsub

/-- Masked read of a sub-field disjoint from the update mask: the read is
unchanged by the update. -/
lemma read_masked_update_disjoint (b : Regs) (reg val mask g : Nat)
    (hdis : g % 256 &&& mask % 256 = 0) :
    read_register_masked (update_register b reg val mask) reg g
      = read_register_masked b reg g := by
  unfold read_register_masked
  rw [read_update_self]
  exact upd_byte_disjoint (mod256_lt g) hdis

/-! ### Claim theorems -/

/-- C7: `update_register(reg, val, mask)` performs a read-modify-write whose
written byte equals `(old AND NOT mask) OR (val AND mask)` for every register
address, 8-bit value and 8-bit mask; every bit position where the mask is
zero keeps its previous register value, every masked position takes the bit
of `val`, and every other register is untouched. -/
theorem update_register_rmw (b : Regs) (reg val mask : Nat)
    (hv : val < 256) (hm : mask < 256) :
    read_register (update_register b reg val mask) reg
      = ((read_register b reg &&& (255 ^^^ mask)) ||| (val &&& mask)) ∧
    (∀ i, mask.testBit i = false →
      (read_register (update_register b reg val mask) reg).testBit i
        = (read_register b reg).testBit i) ∧
    (∀ i, mask.testBit i = true →
      (read_register (update_register b reg val mask) reg).testBit i
        = val.testBit i) ∧
    (∀ reg2, reg2 ≠ reg →
      read_register (update_register b reg val mask) reg2 = read_register b reg2) := by
  have hself : read_register (update_register b reg val mask) reg
      = ((read_register b reg &&& (255 ^^^ mask)) ||| (val &&& mask)) := by
    rw [read_update_self, Nat.mod_eq_of_lt hv, Nat.mod_eq_of_lt hm]
  refine ⟨hself, ?_, ?_, fun reg2 h => read_update_ne b h val mask⟩
  · intro i hbit
    rw [hself]
    simp only [Nat.testBit_or, Nat.testBit_and, Nat.testBit_xor, testBit_255, hbit]
    by_cases hi : i < 8
    · simp [hi]
    · have h8 : 8 ≤ i := Nat.le_of_not_lt hi
      simp [hi, testBit_ge8 (read_register_lt b reg) h8]
  · intro i hbit
    rw [hself]
    by_cases hi : i < 8
    · simp [Nat.testBit_or, Nat.testBit_and, Nat.testBit_xor, testBit_255, hbit, hi]
    · have h8 : 8 ≤ i := Nat.le_of_not_lt hi
      exact absurd (testBit_ge8 hm h8) (by simp [hbit])

/-- Witness for C7 at a concrete register file, address, value and mask. -/
theorem update_register_rmw_witness :
    read_register (update_register zeroRegs 0x20 5 0x0F) 0x20
      = ((read_register zeroRegs 0x20 &&& (255 ^^^ 0x0F)) ||| (5 &&& 0x0F)) :=
  (update_register_rmw zeroRegs 0x20 5 0x0F (by decide) (by decide)).1

set_option maxRecDepth 8192 in
/-- The getter of the low-pass cutoff mode maps every possible field value
through `LPF_CF_MODE_MAP`, whose four entries are all `LPF_CF0`. -/
lemma lpf_map_const : ∀ x < 256, LPF_CF_MODE_MAP ((x &&& 48) >>> 4) = 0 := by decide

/-- C10: `get_low_pass_filter_cutoff_freq_mode` returns `LPF_CF0` for every
possible value of the low-pass cutoff field, in particular after
`set_low_pass_filter_cutoff_freq_mode(m)` for any mode `m`, so the set/get
pair does not round-trip for modes other than `LPF_CF0`. -/
theorem lpf_mode_getter_constant (d : L3GD20Gyroscope) (m : Nat) :
    get_low_pass_filter_cutoff_freq_mode d = LPF_CF0 ∧
    get_low_pass_filter_cutoff_freq_mode
        (set_low_pass_filter_cutoff_freq_mode d m) = LPF_CF0 := by
  constructor
  · have := lpf_map_const (read_register d.regs CTRL_REG1_ADDR)
      (read_register_lt d.regs CTRL_REG1_ADDR)
    simpa [get_low_pass_filter_cutoff_freq_mode, read_register_masked, LPF_CF0,
      CTRL_REG1_ADDR] using this
  · have := lpf_map_const
      (read_register (set_low_pass_filter_cutoff_freq_mode d m).regs CTRL_REG1_ADDR)
      (read_register_lt _ CTRL_REG1_ADDR)
    simpa [get_low_pass_filter_cutoff_freq_mode, read_register_masked, LPF_CF0,
      CTRL_REG1_ADDR] using this

/-- C9 counterexample: a register file whose CTRL_REG1 low nibble is `0x07`
(bits of the 4-bit gyroscope-mode field are set) for which the getter still
reports disabled, because the code tests only mask `0x08`. -/
theorem get_gyroscope_mode_any_bit_counterexample :
    read_register_masked dLowBits.regs CTRL_REG1_ADDR 0x0F ≠ 0 ∧
    get_gyroscope_mode dLowBits = G_DISABLE ∧ G_DISABLE ≠ G_ENABLE := by decide

set_option maxRecDepth 8192 in
/-- On a byte, testing `x &&& 8` against zero is testing bit 3. -/
lemma and8_testBit3 : ∀ x < 256, (x &&& 8 ≠ 0 ↔ x.testBit 3 = true) := by decide

/-- C9 (amended): `get_gyroscope_mode` reports enabled exactly when bit 3
(mask `0x08`, the power-down bit) of the first control register is set;
`set_gyroscope_mode` writes the enabled/disabled encoding into the full
4-bit field. -/
theorem gyroscope_mode_bit3 (d : L3GD20Gyroscope) (mode : Nat)
    (hmode : mode = G_ENABLE ∨ mode = G_DISABLE) :
    (get_gyroscope_mode d = G_ENABLE
      ↔ (read_register d.regs CTRL_REG1_ADDR).testBit 3 = true) ∧
    read_register_masked (set_gyroscope_mode d mode).regs CTRL_REG1_ADDR 0x0F
      = mode := by
  have hb := and8_testBit3 (read_register d.regs CTRL_REG1_ADDR)
    (read_register_lt d.regs CTRL_REG1_ADDR)
  constructor
  · rw [← hb]
    by_cases hc : read_register d.regs CTRL_REG1_ADDR &&& 8 = 0 <;>
      simp [get_gyroscope_mode, read_register_masked, hc, G_ENABLE, G_DISABLE]
  · rcases hmode with h | h <;> subst h <;>
      simp +decide [set_gyroscope_mode, read_masked_update_subset, G_ENABLE, G_DISABLE]

/-- Witness for the amended C9 theorem at a concrete driver and mode. -/
theorem gyroscope_mode_bit3_witness :
    read_register_masked (set_gyroscope_mode d0 G_ENABLE).regs CTRL_REG1_ADDR 0x0F
      = G_ENABLE :=
  (gyroscope_mode_bit3 d0 G_ENABLE (Or.inl rfl)).2

/-- C3: for each of the four full-scale enumerants, after `set_full_scale`
the getters return the corresponding base-table sensitivity (respectively
that value times `RADIAN_PER_DEGREE`), and both getters depend only on the
device registers — a live read — not on the host-side cached values. -/
theorem full_scale_sensitivity (d : L3GD20Gyroscope) :
    (get_sensitivity_dps (set_full_scale d FULL_SCALE_250) = 0.00875 ∧
     get_sensitivity (set_full_scale d FULL_SCALE_250)
       = 0.00875 * RADIAN_PER_DEGREE) ∧
    (get_sensitivity_dps (set_full_scale d FULL_SCALE_500) = 0.0175 ∧
     get_sensitivity (set_full_scale d FULL_SCALE_500)
       = 0.0175 * RADIAN_PER_DEGREE) ∧
    (get_sensitivity_dps (set_full_scale d FULL_SCALE_1000) = 0.035 ∧
     get_sensitivity (set_full_scale d FULL_SCALE_1000)
       = 0.035 * RADIAN_PER_DEGREE) ∧
    (get_sensitivity_dps (set_full_scale d FULL_SCALE_2000) = 0.07 ∧
     get_sensitivity (set_full_scale d FULL_SCALE_2000)
       = 0.07 * RADIAN_PER_DEGREE) ∧
    (∀ d2 : L3GD20Gyroscope, d2.regs = d.regs →
      get_sensitivity_dps d2 = get_sensitivity_dps d ∧
      get_sensitivity d2 = get_sensitivity d) := by
  refine ⟨⟨?_, ?_⟩, ⟨?_, ?_⟩, ⟨?_, ?_⟩, ⟨?_, ?_⟩,
    fun d2 h => ⟨by simp [get_sensitivity_dps, h], by simp [get_sensitivity, h]⟩⟩ <;>
    simp +decide [get_sensitivity_dps, get_sensitivity, set_full_scale,
      read_masked_update_subset, FULL_SCALE_250, FULL_SCALE_500,
      FULL_SCALE_1000, FULL_SCALE_2000, CTRL_REG4_ADDR, SENSITIVITY_MAP,
      RADIAN_PER_DEGREE] <;> norm_num

/-- Witness for C3 at a concrete driver. -/
theorem full_scale_sensitivity_witness :
    get_sensitivity_dps (set_full_scale d0 FULL_SCALE_500) = 0.0175 ∧
    get_sensitivity_dps d0 = get_sensitivity_dps d0 :=
  ⟨(full_scale_sensitivity d0).2.1.1,
   ((full_scale_sensitivity d0).2.2.2.2 d0 rfl).1⟩

/-- `(int16_t)(h << 8) + l` equals the two-complement reading of the
16-bit pattern `(h << 8) + l`, for bytes `h`, `l`. -/
lemma cast16_reconstruct (h l : Nat) (hh : h < 256) (hl : l < 256) :
    cast_int16 (h <<< 8) + (l : Int) = toSigned16 ((h <<< 8) + l) := by
  have e8 : h <<< 8 = h * 256 := by rw [Nat.shiftLeft_eq]
  rw [e8]
  unfold cast_int16 toSigned16
  have e1 : h * 256 % 65536 = h * 256 := Nat.mod_eq_of_lt (by omega)
  have e2 : (h * 256 + l) % 65536 = h * 256 + l := Nat.mod_eq_of_lt (by omega)
  rw [e1, e2]
  split_ifs <;> omega

/-- C4: for one and the same six-byte register snapshot, `read_data_dps`
returns exactly the three `read_data_16` values scaled by the cached
degrees-per-second sensitivity, and each `read_data_16` axis value is the
two-complement 16-bit reading of high-byte-shifted-left-8 plus low-byte. -/
theorem read_data_dps_roundtrip (d : L3GD20Gyroscope) :
    read_data_dps d
      = ((read_data_16 d).1 * d.gyro_sensitivity_dps,
         (read_data_16 d).2.1 * d.gyro_sensitivity_dps,
         (read_data_16 d).2.2 * d.gyro_sensitivity_dps) ∧
    (read_data_16 d).1
      = toSigned16 ((read_register d.regs OUT_X_H_ADDR <<< 8)
          + read_register d.regs OUT_X_L_ADDR) ∧
    (read_data_16 d).2.1
      = toSigned16 ((read_register d.regs OUT_Y_H_ADDR <<< 8)
          + read_register d.regs OUT_Y_L_ADDR) ∧
    (read_data_16 d).2.2
      = toSigned16 ((read_register d.regs OUT_Z_H_ADDR <<< 8)
          + read_register d.regs OUT_Z_L_ADDR) := by
  refine ⟨rfl, ?_, ?_, ?_⟩
  · have := cast16_reconstruct (read_register d.regs OUT_X_H_ADDR)
      (read_register d.regs OUT_X_L_ADDR) (read_register_lt _ _)
      (read_register_lt _ _)
    simpa [read_data_16,
      show OUT_X_L_ADDR + 1 = OUT_X_H_ADDR from by decide] using this
  · have := cast16_reconstruct (read_register d.regs OUT_Y_H_ADDR)
      (read_register d.regs OUT_Y_L_ADDR) (read_register_lt _ _)
      (read_register_lt _ _)
    simpa [read_data_16,
      show OUT_X_L_ADDR + 3 = OUT_Y_H_ADDR from by decide,
      show OUT_X_L_ADDR + 2 = OUT_Y_L_ADDR from by decide] using this
  · have := cast16_reconstruct (read_register d.regs OUT_Z_H_ADDR)
      (read_register d.regs OUT_Z_L_ADDR) (read_register_lt _ _)
      (read_register_lt _ _)
    simpa [read_data_16,
      show OUT_X_L_ADDR + 5 = OUT_Z_H_ADDR from by decide,
      show OUT_X_L_ADDR + 4 = OUT_Z_L_ADDR from by decide] using this

/-- C5: `set_fifo_watermark(w)` raises the invalid-argument error exactly for
`w < 0` or `w > 31`, with the device state at the raise equal to the entry
state (no register write performed); for `w` in `[0, 31]` it writes `w` into
the low 5 bits of the FIFO control register — the getter reads back `w` and
the high 3 bits are untouched.  Out-of-range values are never clamped. -/
theorem set_fifo_watermark_range (d : L3GD20Gyroscope) (w : Int) :
    ((w < 0 ∨ 31 < w) →
      set_fifo_watermark d w = Except.error (MBED_ERROR_INVALID_ARGUMENT, d)) ∧
    (0 ≤ w → w ≤ 31 →
      set_fifo_watermark d w = Except.ok
        { d with regs := update_register d.regs FIFO_CTRL_REG_ADDR w.toNat 0x1F } ∧
      ∀ d2, set_fifo_watermark d w = Except.ok d2 →
        (get_fifo_watermark d2 : Int) = w ∧
        read_register_masked d2.regs FIFO_CTRL_REG_ADDR 0x1F = w.toNat ∧
        read_register_masked d2.regs FIFO_CTRL_REG_ADDR 0xE0
          = read_register_masked d.regs FIFO_CTRL_REG_ADDR 0xE0) ∧
    MBED_ERROR_INVALID_ARGUMENT ≠ 0 := by
  refine ⟨?_, ?_, by decide⟩
  · intro h
    unfold set_fifo_watermark
    rw [if_pos (by omega)]
  · intro h0 h31
    have hok : set_fifo_watermark d w = Except.ok
        { d with regs := update_register d.regs FIFO_CTRL_REG_ADDR w.toNat 0x1F } := by
      unfold set_fifo_watermark
      rw [if_neg (by omega)]
    refine ⟨hok, ?_⟩
    intro d2 h2
    rw [hok] at h2
    injection h2 with h2
    subst h2
    have hand : w.toNat &&& 31 = w.toNat := by
      have hp : w.toNat < 2 ^ 5 := by omega
      have := Nat.and_pow_two_sub_one_of_lt_two_pow hp
      norm_num at this
      exact this
    have hlow : read_register_masked
        (update_register d.regs FIFO_CTRL_REG_ADDR w.toNat 0x1F)
        FIFO_CTRL_REG_ADDR 0x1F = w.toNat := by
      rw [read_masked_update_subset _ _ _ _ _ (by decide),
        Nat.mod_eq_of_lt (show w.toNat < 256 by omega)]
      norm_num [hand]
    refine ⟨?_, ?_, ?_⟩
    · show ((read_register_masked
        (update_register d.regs FIFO_CTRL_REG_ADDR w.toNat 0x1F)
        FIFO_CTRL_REG_ADDR 0x1F : Nat) : Int) = w
      rw [hlow]
      exact Int.toNat_of_nonneg h0
    · exact hlow
    · exact read_masked_update_disjoint d.regs FIFO_CTRL_REG_ADDR w.toNat 0x1F 0xE0
        (by decide)

/-- Witness for C5: watermark 32 and -1 are rejected with the state
untouched; watermark 31 is accepted and reads back as 31. -/
theorem set_fifo_watermark_range_witness :
    set_fifo_watermark d0 32 = Except.error (MBED_ERROR_INVALID_ARGUMENT, d0) ∧
    set_fifo_watermark d0 (-1) = Except.error (MBED_ERROR_INVALID_ARGUMENT, d0) ∧
    (get_fifo_watermark { d0 with regs := update_register d0.regs FIFO_CTRL_REG_ADDR (31 : Int).toNat 0x1F } : Int) = 31 := by
  have h := (set_fifo_watermark_range d0 31).2.1 (by decide) (by decide)
  exact ⟨(set_fifo_watermark_range d0 32).1 (Or.inr (by decide)),
         (set_fifo_watermark_range d0 (-1)).1 (Or.inl (by decide)),
         (h.2 _ h.1).1⟩

/-- Ground bitwise facts used while evaluating setter/getter chains. -/
lemma and_lit_4_15 : (4 &&& 15 : Nat) = 4 := by decide
lemma and_lit_8_15 : (8 &&& 15 : Nat) = 8 := by decide
lemma and_lit_15_15 : (15 &&& 15 : Nat) = 15 := by decide
lemma and_lit_7_15 : (7 &&& 15 : Nat) = 7 := by decide
lemma and_lit_64_64 : (64 &&& 64 : Nat) = 64 := by decide

/-- C2: enabling the data-ready interrupt routes it to the watermark source
(`0x04` in the low nibble of CTRL_REG3) when FIFO is enabled and to the per-sample
data-ready source (`0x08`) when FIFO is disabled; toggling the FIFO mode while
the interrupt is enabled re-routes the source accordingly without an explicit
re-enable, and while the interrupt is disabled a FIFO mode change leaves it
disabled. -/
theorem fifo_interrupt_coupling (d : L3GD20Gyroscope) :
    (get_fifo_mode d = FIFO_ENABLE →
      read_register_masked (set_data_ready_interrupt_mode d DRDY_ENABLE).regs
        CTRL_REG3_ADDR 0x0F = 0x04) ∧
    (get_fifo_mode d = FIFO_DISABLE →
      read_register_masked (set_data_ready_interrupt_mode d DRDY_ENABLE).regs
        CTRL_REG3_ADDR 0x0F = 0x08) ∧
    (get_data_ready_interrupt_mode d = DRDY_ENABLE →
      read_register_masked (set_fifo_mode d FIFO_ENABLE).regs
        CTRL_REG3_ADDR 0x0F = 0x04 ∧
      read_register_masked (set_fifo_mode d FIFO_DISABLE).regs
        CTRL_REG3_ADDR 0x0F = 0x08) ∧
    (get_data_ready_interrupt_mode d = DRDY_DISABLE →
      ∀ m, get_data_ready_interrupt_mode (set_fifo_mode d m) = DRDY_DISABLE) := by
  refine ⟨?_, ?_, ?_, ?_⟩
  · intro h
    simp +decide [set_data_ready_interrupt_mode, DRDY_ENABLE, FIFO_ENABLE,
      _update_interrupt_register_enable, h, read_masked_update_subset,
      and_lit_4_15]
  · intro h
    simp +decide [set_data_ready_interrupt_mode, DRDY_ENABLE, FIFO_DISABLE,
      _update_interrupt_register_enable, h, read_masked_update_subset,
      and_lit_8_15]
  · intro h
    by_cases hv : read_register_masked d.regs CTRL_REG3_ADDR 0x0F = 0
    · exfalso
      simp [get_data_ready_interrupt_mode, _update_interrupt_register_query, hv,
        DRDY_ENABLE, DRDY_DISABLE] at h
    · constructor <;>
        simp +decide [set_fifo_mode, FIFO_ENABLE, FIFO_DISABLE,
          _update_interrupt_register_refresh, _update_interrupt_register_query,
          _update_interrupt_register_enable, _update_interrupt_register_disable,
          get_fifo_mode, read_masked_update_ne, read_masked_update_subset,
          read_masked_update_disjoint, hv, DRDY_ENABLE, DRDY_DISABLE,
          and_lit_4_15, and_lit_8_15, and_lit_64_64]
  · intro h m
    by_cases hv : read_register_masked d.regs CTRL_REG3_ADDR 0x0F = 0
    · by_cases hm : m = 0 <;>
        simp +decide [set_fifo_mode, hm, get_data_ready_interrupt_mode,
          _update_interrupt_register_refresh, _update_interrupt_register_query,
          _update_interrupt_register_enable, _update_interrupt_register_disable,
          get_fifo_mode, read_masked_update_ne, read_masked_update_subset,
          read_masked_update_disjoint, hv, DRDY_ENABLE, DRDY_DISABLE,
          and_lit_4_15, and_lit_8_15, and_lit_64_64]
    · exfalso
      simp [get_data_ready_interrupt_mode, _update_interrupt_register_query, hv,
        DRDY_ENABLE, DRDY_DISABLE] at h

/-- Witness for C2 at concrete drivers: FIFO on, FIFO off, interrupt on,
interrupt off. -/
theorem fifo_interrupt_coupling_witness :
    read_register_masked (set_data_ready_interrupt_mode dFifoEnabled DRDY_ENABLE).regs
      CTRL_REG3_ADDR 0x0F = 0x04 ∧
    read_register_masked (set_data_ready_interrupt_mode d0 DRDY_ENABLE).regs
      CTRL_REG3_ADDR 0x0F = 0x08 ∧
    read_register_masked (set_fifo_mode dIntrEnabled FIFO_ENABLE).regs
      CTRL_REG3_ADDR 0x0F = 0x04 ∧
    get_data_ready_interrupt_mode (set_fifo_mode d0 FIFO_ENABLE) = DRDY_DISABLE :=
  ⟨(fifo_interrupt_coupling dFifoEnabled).1 (by decide),
   (fifo_interrupt_coupling d0).2.1 (by decide),
   ((fifo_interrupt_coupling dIntrEnabled).2.2.1 (by decide)).1,
   (fifo_interrupt_coupling d0).2.2.2 (by decide) FIFO_ENABLE⟩

/-- The clamped-shift-or index of the code into the 40-entry table equals the
arithmetic form `4 * min(mode, 9) + rate` for a 4-bit mode field and a
2-bit rate field. -/
lemma hpf_index_eq : ∀ m < 16, ∀ r < 4,
    ((if m ≥ 10 then 9 else m) <<< 2) ||| r = 4 * min m 9 + r := by decide

/-- C8: the high-pass cutoff getter returns the 40-entry table value at
index `(m << 2) | r` — arithmetically `4 * min(m, 9) + r` — where `m` is the
high-pass cutoff mode field (clamped to 9 whenever it is 10 or larger, never
fatal) and `r` the 2-bit output-data-rate field; in particular mode 7 at
95 Hz yields 0.045. -/
theorem hpf_cutoff_frequency_lookup (d : L3GD20Gyroscope) :
    get_high_pass_filter_cut_off_frequency d
      = HPF_CF_FREQ_MAP
          (4 * min (read_register_masked d.regs CTRL_REG2_ADDR 0x0F) 9
            + (read_register_masked d.regs CTRL_REG1_ADDR 0xC0 >>> 6)) ∧
    get_high_pass_filter_cut_off_frequency
        (set_output_data_rate (set_high_pass_filter_cutoff_freq_mode d HPF_CF7)
          ODR_95_HZ)
      = 0.045 := by
  constructor
  · have hm : read_register_masked d.regs CTRL_REG2_ADDR 0x0F < 16 := by
      have h1 : read_register_masked d.regs CTRL_REG2_ADDR 0x0F
          ≤ 0x0F % 256 := by
        unfold read_register_masked
        exact Nat.and_le_right
      omega
    have hr : read_register_masked d.regs CTRL_REG1_ADDR 0xC0 >>> 6 < 4 := by
      have h1 : read_register_masked d.regs CTRL_REG1_ADDR 0xC0 ≤ 0xC0 % 256 := by
        unfold read_register_masked
        exact Nat.and_le_right
      rw [Nat.shiftRight_eq_div_pow]
      omega
    have hidx := hpf_index_eq _ hm _ hr
    unfold get_high_pass_filter_cut_off_frequency
    exact congrArg HPF_CF_FREQ_MAP hidx
  · simp +decide [get_high_pass_filter_cut_off_frequency, set_output_data_rate,
      set_high_pass_filter_cutoff_freq_mode, HPF_CF7, ODR_95_HZ,
      read_masked_update_ne, read_masked_update_subset, and_lit_7_15]
    norm_num [HPF_CF_FREQ_MAP]

/-- Any successful `init(start)` leaves the configuration getters at the
documented defaults, with the gyroscope enabled exactly when `start` is true. -/
lemma init_success_defaults (resp : Nat → Nat) (start : Bool)
    (d : L3GD20Gyroscope) (r : Int) (d2 : L3GD20Gyroscope)
    (hinit : init resp start d = (r, d2)) (hsucc : r = MBED_SUCCESS) :
    get_data_ready_interrupt_mode d2 = DRDY_DISABLE ∧
    get_fifo_mode d2 = FIFO_DISABLE ∧
    get_fifo_watermark d2 = 0 ∧
    get_full_scale d2 = FULL_SCALE_250 ∧
    get_high_pass_filter_mode d2 = HPF_DISABLE ∧
    get_high_pass_filter_cutoff_freq_mode d2 = HPF_CF0 ∧
    get_low_pass_filter_cutoff_freq_mode d2 = LPF_CF0 ∧
    get_output_data_rate d2 = ODR_95_HZ ∧
    get_gyroscope_mode d2 = (if start then G_ENABLE else G_DISABLE) := by
  by_cases hp : (whoAmIProbe resp).2 = DEVICE_ID
  · have hd2 : d2 = (init resp start d).2 := by rw [hinit]
    subst hd2
    cases start <;>
      simp +decide [init, hp, set_data_ready_interrupt_mode,
        _update_interrupt_register_disable, _update_interrupt_register_enable,
        _update_interrupt_register_query, _update_interrupt_register_refresh,
        set_fifo_mode, set_fifo_watermark, set_full_scale,
        set_high_pass_filter_mode, set_high_pass_filter_cutoff_freq_mode,
        set_low_pass_filter_cutoff_freq_mode, set_output_data_rate,
        set_gyroscope_mode, get_fifo_watermark, get_fifo_mode, get_full_scale,
        get_data_ready_interrupt_mode, get_high_pass_filter_mode,
        get_high_pass_filter_cutoff_freq_mode,
        get_low_pass_filter_cutoff_freq_mode, get_output_data_rate,
        get_gyroscope_mode, read_masked_update_ne, read_masked_update_subset,
        read_masked_update_disjoint, DRDY_DISABLE, DRDY_ENABLE, FIFO_DISABLE,
        FIFO_ENABLE, FULL_SCALE_250, HPF_DISABLE, HPF_CF0, LPF_CF0, ODR_95_HZ,
        G_ENABLE, G_DISABLE, CTRL_REG1_ADDR, CTRL_REG2_ADDR, CTRL_REG3_ADDR,
        CTRL_REG4_ADDR, CTRL_REG5_ADDR, FIFO_CTRL_REG_ADDR, MBED_SUCCESS,
        ODR_MODE_MAP, LPF_CF_MODE_MAP, HPF_CF_MODE_MAP, FS_MODE_MAP]
  · exfalso
    simp [init, hp] at hinit
    obtain ⟨h1, _⟩ := hinit
    rw [hsucc] at h1
    exact absurd h1 (by decide)

/-- C1: after `init(start)` returns success the getters report the default
configuration — interrupt disabled, FIFO disabled, watermark 0, full scale
250 dps, high-pass filter disabled with cutoff mode 0, low-pass cutoff
mode 0, output data rate 95 Hz, gyroscope enabled iff `start` — and a second
successful `init` in succession reports this identical configuration again. -/
theorem init_idempotent_default_config (resp resp2 : Nat → Nat) (start : Bool)
    (d : L3GD20Gyroscope) (r : Int) (d2 : L3GD20Gyroscope)
    (hinit : init resp start d = (r, d2)) (hsucc : r = MBED_SUCCESS) :
    (get_data_ready_interrupt_mode d2 = DRDY_DISABLE ∧
     get_fifo_mode d2 = FIFO_DISABLE ∧
     get_fifo_watermark d2 = 0 ∧
     get_full_scale d2 = FULL_SCALE_250 ∧
     get_high_pass_filter_mode d2 = HPF_DISABLE ∧
     get_high_pass_filter_cutoff_freq_mode d2 = HPF_CF0 ∧
     get_low_pass_filter_cutoff_freq_mode d2 = LPF_CF0 ∧
     get_output_data_rate d2 = ODR_95_HZ ∧
     get_gyroscope_mode d2 = (if start then G_ENABLE else G_DISABLE)) ∧
    (∀ r2 d3, init resp2 start d2 = (r2, d3) → r2 = MBED_SUCCESS →
      get_data_ready_interrupt_mode d3 = get_data_ready_interrupt_mode d2 ∧
      get_fifo_mode d3 = get_fifo_mode d2 ∧
      get_fifo_watermark d3 = get_fifo_watermark d2 ∧
      get_full_scale d3 = get_full_scale d2 ∧
      get_high_pass_filter_mode d3 = get_high_pass_filter_mode d2 ∧
      get_high_pass_filter_cutoff_freq_mode d3
        = get_high_pass_filter_cutoff_freq_mode d2 ∧
      get_low_pass_filter_cutoff_freq_mode d3
        = get_low_pass_filter_cutoff_freq_mode d2 ∧
      get_output_data_rate d3 = get_output_data_rate d2 ∧
      get_gyroscope_mode d3 = get_gyroscope_mode d2) := by
  have h1 := init_success_defaults resp start d r d2 hinit hsucc
  refine ⟨h1, ?_⟩
  intro r2 d3 h2 hs2
  have h3 := init_success_defaults resp2 start d2 r2 d3 h2 hs2
  obtain ⟨a1, a2, a3, a4, a5, a6, a7, a8, a9⟩ := h1
  obtain ⟨b1, b2, b3, b4, b5, b6, b7, b8, b9⟩ := h3
  exact ⟨by rw [a1, b1], by rw [a2, b2], by rw [a3, b3], by rw [a4, b4],
         by rw [a5, b5], by rw [a6, b6], by rw [a7, b7], by rw [a8, b8],
         by rw [a9, b9]⟩

/-- Witness for C1: a reliable bus answering `0xD4`, starting from the all-zero
register file; applies the theorem to both the first and the second call. -/
theorem init_idempotent_default_config_witness :
    get_fifo_watermark (init (fun _ => 0xD4) true d0).2 = 0 ∧
    get_gyroscope_mode
        (init (fun _ => 0xD4) true ((init (fun _ => 0xD4) true d0).2)).2
      = get_gyroscope_mode (init (fun _ => 0xD4) true d0).2 := by
  have H := init_idempotent_default_config (fun _ => 0xD4) (fun _ => 0xD4) true d0
    (init (fun _ => 0xD4) true d0).1 (init (fun _ => 0xD4) true d0).2 rfl
    (by decide)
  exact ⟨H.1.2.2.1, (H.2 _ _ rfl (by decide)).2.2.2.2.2.2.2.2⟩

/-- C6: the identity probe reads the identification register at most 3 times
(and at least once), stops at the first read delivering `0xD4`, succeeds with
result `MBED_SUCCESS` when some of the at-most-3 reads matches, and when none
matches returns the distinguished non-zero initialization-failure code with
the driver state untouched (no configuration register written). -/
theorem init_identity_probe (resp : Nat → Nat) (start : Bool)
    (d : L3GD20Gyroscope) :
    1 ≤ (whoAmIProbe resp).1 ∧ (whoAmIProbe resp).1 ≤ 3 ∧
    (∀ k, k + 1 < (whoAmIProbe resp).1 → resp k % 256 ≠ DEVICE_ID) ∧
    ((∃ k, k < 3 ∧ resp k % 256 = DEVICE_ID) →
      resp ((whoAmIProbe resp).1 - 1) % 256 = DEVICE_ID ∧
      (init resp start d).1 = MBED_SUCCESS) ∧
    ((∀ k, k < 3 → resp k % 256 ≠ DEVICE_ID) →
      init resp start d = (MBED_ERROR_CODE_INITIALIZATION_FAILED, d)) ∧
    MBED_ERROR_CODE_INITIALIZATION_FAILED ≠ MBED_SUCCESS := by
  by_cases h0 : resp 0 % 256 = DEVICE_ID
  · have hp : whoAmIProbe resp = (1, resp 0 % 256) := by simp [whoAmIProbe, h0]
    refine ⟨by simp [hp], by simp [hp], ?_, ?_, ?_, by decide⟩
    · intro k hk
      rw [hp] at hk
      exact absurd (show k + 1 < 1 from hk) (by omega)
    · intro _
      exact ⟨by simpa [hp] using h0, by simp [init, hp, h0, MBED_SUCCESS]⟩
    · intro hall
      exact absurd h0 (hall 0 (by omega))
  · by_cases h1 : resp 1 % 256 = DEVICE_ID
    · have hp : whoAmIProbe resp = (2, resp 1 % 256) := by
        simp [whoAmIProbe, h0, h1]
      refine ⟨by simp [hp], by simp [hp], ?_, ?_, ?_, by decide⟩
      · intro k hk
        rw [hp] at hk
        simp at hk
        have hk0 : k = 0 := by omega
        subst hk0
        exact h0
      · intro _
        exact ⟨by simpa [hp] using h1, by simp [init, hp, h1, MBED_SUCCESS]⟩
      · intro hall
        exact absurd h1 (hall 1 (by omega))
    · have hp : whoAmIProbe resp = (3, resp 2 % 256) := by
        simp [whoAmIProbe, h0, h1]
      by_cases h2 : resp 2 % 256 = DEVICE_ID
      · refine ⟨by simp [hp], by simp [hp], ?_, ?_, ?_, by decide⟩
        · intro k hk
          rw [hp] at hk
          simp at hk
          have hk01 : k = 0 ∨ k = 1 := by omega
          rcases hk01 with hk0 | hk1
          · subst hk0; exact h0
          · subst hk1; exact h1
        · intro _
          exact ⟨by simpa [hp] using h2, by simp [init, hp, h2, MBED_SUCCESS]⟩
        · intro hall
          exact absurd h2 (hall 2 (by omega))
      · refine ⟨by simp [hp], by simp [hp], ?_, ?_, ?_, by decide⟩
        · intro k hk
          rw [hp] at hk
          simp at hk
          have hk01 : k = 0 ∨ k = 1 := by omega
          rcases hk01 with hk0 | hk1
          · subst hk0; exact h0
          · subst hk1; exact h1
        · intro hex
          obtain ⟨k, hk3, hkm⟩ := hex
          have hk012 : k = 0 ∨ k = 1 ∨ k = 2 := by omega
          rcases hk012 with hk | hk | hk <;> subst hk
          · exact absurd hkm h0
          · exact absurd hkm h1
          · exact absurd hkm h2
        · intro _
          simp [init, hp, h2]

/-- Witness for C6: a bus that always answers `0xD4` (success after one read)
and a bus that always answers `0` (failure after three reads, state kept). -/
theorem init_identity_probe_witness :
    (init (fun _ => 0xD4) true d0).1 = MBED_SUCCESS ∧
    init (fun _ => 0) true d0 = (MBED_ERROR_CODE_INITIALIZATION_FAILED, d0) :=
  ⟨((init_identity_probe (fun _ => 0xD4) true d0).2.2.2.1
      ⟨0, by omega, by decide⟩).2,
   (init_identity_probe (fun _ => 0) true d0).2.2.2.2.1
      (fun k hk => by decide)⟩

end L3gd20
